import Mathlib

/-!
Verification of the report configuration declared in
`bioprime/bioprime/report/warehouse_wise_stock_balance_cluster/warehouse_wise_stock_balance_cluster.js`.

The source file builds a single JavaScript object literal and stores it in the
global registry `frappe.query_reports` under the key
"Warehouse Wise Stock Balance Cluster".  The literal calls two external host
functions: the localization function `__` and the session-default lookup
`frappe.defaults.get_user_default`.  We embed the literal as a Lean record
parametrised by those two external functions, and the global registry as a
finite map from report names to optional configurations, updated by the
module-load step.
-/

/-- A JavaScript primitive value as it occurs in the configuration literal:
a string, a numeric literal (all numbers in the source are integers), or a
boolean. -/
inductive JSValue where
  | str : String → JSValue
  | num : Int → JSValue
  | bool : Bool → JSValue
  deriving DecidableEq, Repr

/-- One filter descriptor, mirroring one element of the `"filters"` array in
the source.  Keys that a descriptor may omit (`options`, `reqd`, `default`)
are `Option`-typed; `none` means the key is absent from the object literal. -/
structure FilterField where
  fieldname : String
  label : String
  fieldtype : String
  options : Option String
  reqd : Option JSValue
  default : Option JSValue
  deriving DecidableEq, Repr

/-- The report configuration object, mirroring the top-level object literal
assigned to `frappe.query_reports["Warehouse Wise Stock Balance Cluster"]`. -/
structure ReportConfiguration where
  filters : List FilterField
  initial_depth : Int
  tree : Bool
  parent_field : String
  name_field : String
  deriving DecidableEq, Repr

/-- The object literal from the source, lines 5-27.  `localize` embeds the
host localization function `__`; `get_user_default` embeds
`frappe.defaults.get_user_default`, the lookup of the current user's session
default for an entity type. -/
def warehouse_wise_stock_balance_cluster
    (localize : String → String) (get_user_default : String → JSValue) :
    ReportConfiguration :=
  { filters :=
      [ { fieldname := "company"
          label := localize "Company"
          fieldtype := "Link"
          options := some "Company"
          reqd := some (JSValue.num 1)
          default := some (get_user_default "Company") },
        { fieldname := "show_disabled_warehouses"
          label := localize "Show Disabled Warehouses"
          fieldtype := "Check"
          options := none
          reqd := none
          default := some (JSValue.num 0) } ]
    initial_depth := 3
    tree := true
    parent_field := "parent_warehouse"
    name_field := "warehouse" }

/-- The report name under which the configuration is registered. -/
def report_name : String := "Warehouse Wise Stock Balance Cluster"

/-- The global registry `frappe.query_reports`: a map from report names to
registered configurations (`none` = no configuration registered under that
name). -/
def QueryReports : Type := String → Option ReportConfiguration

/-- The effect of the assignment `frappe.query_reports[name] = config`:
the entry under `name` now holds `config`; every other entry is unchanged. -/
def register (registry : QueryReports) (name : String)
    (config : ReportConfiguration) : QueryReports :=
  fun n => if n = name then some config else registry n

/-- Loading the module executes the single top-level statement of the source
file: it constructs the configuration literal and registers it under
`report_name`. -/
def module_load (localize : String → String)
    (get_user_default : String → JSValue) (registry : QueryReports) :
    QueryReports :=
  register registry report_name
    (warehouse_wise_stock_balance_cluster localize get_user_default)

/-- A JSON document, the transport format used for the round-trip property. -/
inductive Json where
  | null : Json
  | str : String → Json
  | num : Int → Json
  | bool : Bool → Json
  | arr : List Json → Json
  | obj : List (String × Json) → Json

/-- Modelled from the spec: the repository contains no serializer; the spec's
round-trip property posits "serializing the configuration to a transport
format (e.g., for a settings-export feature)".  We take the transport format
to be a JSON document mirroring the object literal of the source, encoding an
absent attribute as JSON `null`.  This function encodes a primitive value. -/
def jsonOfJSValue : JSValue → Json
  | JSValue.str s => Json.str s
  | JSValue.num n => Json.num n
  | JSValue.bool b => Json.bool b

/-- Modelled from the spec: decoder for `jsonOfJSValue` (no decoder exists in
the repository). -/
def jsValueOfJson : Json → Option JSValue
  | Json.str s => some (JSValue.str s)
  | Json.num n => some (JSValue.num n)
  | Json.bool b => some (JSValue.bool b)
  | _ => none

/-- Modelled from the spec: encoder for an optional string attribute (absent
attributes become JSON `null`). -/
def jsonOfOptStr : Option String → Json
  | none => Json.null
  | some s => Json.str s

/-- Modelled from the spec: decoder for `jsonOfOptStr`. -/
def optStrOfJson : Json → Option (Option String)
  | Json.null => some none
  | Json.str s => some (some s)
  | _ => none

/-- Modelled from the spec: encoder for an optional primitive-value attribute
(absent attributes become JSON `null`). -/
def jsonOfOptVal : Option JSValue → Json
  | none => Json.null
  | some v => jsonOfJSValue v

/-- Modelled from the spec: decoder for `jsonOfOptVal`. -/
def optValOfJson : Json → Option (Option JSValue)
  | Json.null => some none
  | j => (jsValueOfJson j).map some

/-- Modelled from the spec: serialize one filter descriptor to a JSON object
with the documented keys. -/
def serializeFilter (f : FilterField) : Json :=
  Json.obj
    [ ("fieldname", Json.str f.fieldname),
      ("label", Json.str f.label),
      ("fieldtype", Json.str f.fieldtype),
      ("options", jsonOfOptStr f.options),
      ("reqd", jsonOfOptVal f.reqd),
      ("default", jsonOfOptVal f.default) ]

/-- Modelled from the spec: deserialize one filter descriptor. -/
def deserializeFilter : Json → Option FilterField
  | Json.obj
      [ ("fieldname", Json.str fn),
        ("label", Json.str lb),
        ("fieldtype", Json.str ft),
        ("options", o),
        ("reqd", r),
        ("default", d) ] =>
    match optStrOfJson o, optValOfJson r, optValOfJson d with
    | some o', some r', some d' =>
      some { fieldname := fn, label := lb, fieldtype := ft,
             options := o', reqd := r', default := d' }
    | _, _, _ => none
  | _ => none

/-- Modelled from the spec: deserialize a list of filter descriptors,
failing if any element fails. -/
def deserializeFilters : List Json → Option (List FilterField)
  | [] => some []
  | j :: js =>
    match deserializeFilter j, deserializeFilters js with
    | some f, some fs => some (f :: fs)
    | _, _ => none

/-- Modelled from the spec: serialize the whole configuration with all
documented fields (`filters`, `initial_depth`, `tree`, `parent_field`,
`name_field`). -/
def serializeConfig (c : ReportConfiguration) : Json :=
  Json.obj
    [ ("filters", Json.arr (c.filters.map serializeFilter)),
      ("initial_depth", Json.num c.initial_depth),
      ("tree", Json.bool c.tree),
      ("parent_field", Json.str c.parent_field),
      ("name_field", Json.str c.name_field) ]

/-- Modelled from the spec: deserialize a whole configuration. -/
def deserializeConfig : Json → Option ReportConfiguration
  | Json.obj
      [ ("filters", Json.arr fs),
        ("initial_depth", Json.num d),
        ("tree", Json.bool t),
        ("parent_field", Json.str pf),
        ("name_field", Json.str nf) ] =>
    match deserializeFilters fs with
    | some filters =>
      some { filters := filters, initial_depth := d, tree := t,
             parent_field := pf, name_field := nf }
    | none => none
  | _ => none


/-- C1, as frozen, asserts the second filter has `reqd=0`; in the source the
`reqd` key is absent from the `show_disabled_warehouses` descriptor, so the
attribute is not present with value `0`.  Concretely (with the identity
localization and a constant user-default lookup) the per-filter `reqd`
attributes are `[some 1, none]`, not `[some 1, some 0]`. -/
theorem c1_counterexample :
    ((warehouse_wise_stock_balance_cluster (fun s => s)
        (fun _ => JSValue.str "")).filters.map FilterField.reqd)
      ≠ [some (JSValue.num 1), some (JSValue.num 0)] := by
  decide

/-- C1 (amended): for every localization and user-default function, the
filters list contains exactly 2 entries, in order: `company` of type `Link`
with options `Company` and `reqd = 1`, then `show_disabled_warehouses` of type
`Check` with default `0` and no `reqd` attribute (the key is absent); and the
`Link`-typed filter's options value is non-empty and equals "Company". -/
theorem c1_filters_amended (localize : String → String)
    (get_user_default : String → JSValue) :
    (warehouse_wise_stock_balance_cluster localize get_user_default).filters
      = [ { fieldname := "company"
            label := localize "Company"
            fieldtype := "Link"
            options := some "Company"
            reqd := some (JSValue.num 1)
            default := some (get_user_default "Company") },
          { fieldname := "show_disabled_warehouses"
            label := localize "Show Disabled Warehouses"
            fieldtype := "Check"
            options := none
            reqd := none
            default := some (JSValue.num 0) } ]
      ∧ "Company" ≠ "" := by
  exact ⟨rfl, by decide⟩

/-- C2: the tree-display options hold exactly `tree = true`,
`initial_depth = 3`, `parent_field = "parent_warehouse"`,
`name_field = "warehouse"`, and `initial_depth` is an integer `≥ 0`. -/
theorem c2_tree_options (localize : String → String)
    (get_user_default : String → JSValue) :
    (warehouse_wise_stock_balance_cluster localize get_user_default).tree = true
      ∧ (warehouse_wise_stock_balance_cluster localize
          get_user_default).initial_depth = 3
      ∧ (warehouse_wise_stock_balance_cluster localize
          get_user_default).parent_field = "parent_warehouse"
      ∧ (warehouse_wise_stock_balance_cluster localize
          get_user_default).name_field = "warehouse"
      ∧ 0 ≤ (warehouse_wise_stock_balance_cluster localize
          get_user_default).initial_depth := by
  refine ⟨rfl, rfl, rfl, rfl, ?_⟩
  show (0 : Int) ≤ 3
  decide

/-- C3: the fieldnames of distinct entries of the filters list differ
pairwise. -/
theorem c3_fieldnames_unique (localize : String → String)
    (get_user_default : String → JSValue) :
    List.Pairwise (fun a b => a.fieldname ≠ b.fieldname)
      (warehouse_wise_stock_balance_cluster localize
        get_user_default).filters := by
  simp [warehouse_wise_stock_balance_cluster, List.pairwise_cons]

/-- C4: after the module loads on a registry in which the report name is
unregistered, the entry under "Warehouse Wise Stock Balance Cluster" holds
exactly the constructed configuration (a read returns that structure, and,
the model being pure, every subsequent read returns the same structure); the
entry underwent one transition, from unregistered (`none`) to registered; and
no other entry of the registry changed. -/
theorem c4_registration (localize : String → String)
    (get_user_default : String → JSValue) (registry : QueryReports)
    (h : registry report_name = none) :
    module_load localize get_user_default registry report_name
        = some (warehouse_wise_stock_balance_cluster localize get_user_default)
      ∧ registry report_name
          ≠ module_load localize get_user_default registry report_name
      ∧ ∀ n, n ≠ report_name →
          module_load localize get_user_default registry n = registry n := by
  refine ⟨?_, ?_, ?_⟩
  · simp [module_load, register]
  · intro hcontra
    rw [h] at hcontra
    simp [module_load, register] at hcontra
  · intro n hn
    simp [module_load, register, hn]

/-- Witness for C4 at the empty registry and concrete host functions. -/
theorem c4_registration_witness :
    module_load (fun s => s) (fun _ => JSValue.str "") (fun _ => none)
        report_name
      = some (warehouse_wise_stock_balance_cluster (fun s => s)
          (fun _ => JSValue.str "")) :=
  (c4_registration (fun s => s) (fun _ => JSValue.str "")
    (fun _ => none) rfl).1

/-- C5: for every localization and user-default function, the "company"
filter's stored default is exactly the user-default lookup for the entity
type "Company" (so the value the host reads is whatever the session-state
resolver produces at the time it runs); moreover the stored default varies
with the resolver, hence it is not fixed to any literal at registration
time. -/
theorem c5_default_deferred :
    (∀ (localize : String → String) (get_user_default : String → JSValue),
      ((warehouse_wise_stock_balance_cluster localize
          get_user_default).filters.map FilterField.default)
        = [some (get_user_default "Company"), some (JSValue.num 0)])
    ∧ ∃ g₁ g₂ : String → JSValue,
        ((warehouse_wise_stock_balance_cluster (fun s => s)
            g₁).filters.map FilterField.default)
          ≠ ((warehouse_wise_stock_balance_cluster (fun s => s)
              g₂).filters.map FilterField.default) := by
  refine ⟨fun localize get_user_default => rfl,
    fun _ => JSValue.str "A", fun _ => JSValue.str "B", ?_⟩
  decide

/-- C6: for every localization function, each filter's stored label is the
localization of "Company" and of "Show Disabled Warehouses" respectively;
moreover the stored labels vary with the localization function, hence they
are not fixed pre-resolved strings. -/
theorem c6_labels_localized :
    (∀ (localize : String → String) (get_user_default : String → JSValue),
      ((warehouse_wise_stock_balance_cluster localize
          get_user_default).filters.map FilterField.label)
        = [localize "Company", localize "Show Disabled Warehouses"])
    ∧ ∃ l₁ l₂ : String → String,
        ((warehouse_wise_stock_balance_cluster l₁
            (fun _ => JSValue.str "")).filters.map FilterField.label)
          ≠ ((warehouse_wise_stock_balance_cluster l₂
              (fun _ => JSValue.str "")).filters.map FilterField.label) := by
  refine ⟨fun localize get_user_default => rfl,
    fun s => s, fun s => s ++ "!", ?_⟩
  decide

/-- C7: registering the configuration twice under the report name yields
exactly the registry obtained by registering it once — re-registration has
no further effect on any readable entry, and (the configuration value being
pure) no mutation of the configuration occurs. -/
theorem c7_register_idempotent (localize : String → String)
    (get_user_default : String → JSValue) (registry : QueryReports) :
    module_load localize get_user_default
        (module_load localize get_user_default registry)
      = module_load localize get_user_default registry := by
  funext n
  by_cases h : n = report_name <;> simp [module_load, register, h]

/-- C9: every filter of the configuration has a `reqd` attribute that, where
it appears, is the integer `0` or the integer `1` (a numeric literal, never a
true boolean), and a `fieldtype` attribute that is the string "Link" or the
string "Check". -/
theorem c9_reqd_fieldtype_encoding (localize : String → String)
    (get_user_default : String → JSValue) :
    ∀ f ∈ (warehouse_wise_stock_balance_cluster localize
        get_user_default).filters,
      (∀ v, f.reqd = some v → v = JSValue.num 0 ∨ v = JSValue.num 1)
      ∧ (f.fieldtype = "Link" ∨ f.fieldtype = "Check") := by
  intro f hf
  simp [warehouse_wise_stock_balance_cluster] at hf
  rcases hf with rfl | rfl
  · refine ⟨?_, Or.inl rfl⟩
    intro v hv
    injection hv with h
    exact Or.inr h.symm
  · exact ⟨fun v hv => by simp at hv, Or.inr rfl⟩

/-- Witness for C9 at the first filter of the configuration built with the
identity localization and a constant user-default lookup. -/
theorem c9_reqd_fieldtype_encoding_witness :
    (∀ v, FilterField.reqd
        { fieldname := "company"
          label := "Company"
          fieldtype := "Link"
          options := some "Company"
          reqd := some (JSValue.num 1)
          default := some (JSValue.str "") } = some v →
        v = JSValue.num 0 ∨ v = JSValue.num 1)
    ∧ (FilterField.fieldtype
        { fieldname := "company"
          label := "Company"
          fieldtype := "Link"
          options := some "Company"
          reqd := some (JSValue.num 1)
          default := some (JSValue.str "") } = "Link"
      ∨ FilterField.fieldtype
        { fieldname := "company"
          label := "Company"
          fieldtype := "Link"
          options := some "Company"
          reqd := some (JSValue.num 1)
          default := some (JSValue.str "") } = "Check") :=
  c9_reqd_fieldtype_encoding (fun s => s) (fun _ => JSValue.str "") _
    (by simp [warehouse_wise_stock_balance_cluster])

/-- C10: the `show_disabled_warehouses` descriptor carries no `reqd` key and
no `options` key (both attributes are absent, not present with a value), and
every filter whose descriptor carries an `options` attribute is the
`Link`-typed one. -/
theorem c10_attribute_absence (localize : String → String)
    (get_user_default : String → JSValue) :
    ((warehouse_wise_stock_balance_cluster localize
        get_user_default).filters.map FilterField.reqd)
        = [some (JSValue.num 1), none]
      ∧ ((warehouse_wise_stock_balance_cluster localize
          get_user_default).filters.map FilterField.options)
          = [some "Company", none]
      ∧ ∀ f ∈ (warehouse_wise_stock_balance_cluster localize
          get_user_default).filters,
          f.options ≠ none → f.fieldtype = "Link" := by
  refine ⟨rfl, rfl, ?_⟩
  intro f hf hopt
  simp [warehouse_wise_stock_balance_cluster] at hf
  rcases hf with rfl | rfl
  · rfl
  · exact absurd rfl hopt

/-- Witness for C10: the `options`-carrying filter of the configuration built
with the identity localization and a constant user-default lookup has
fieldtype "Link". -/
theorem c10_attribute_absence_witness :
    FilterField.fieldtype
        { fieldname := "company"
          label := "Company"
          fieldtype := "Link"
          options := some "Company"
          reqd := some (JSValue.num 1)
          default := some (JSValue.str "") } = "Link" :=
  (c10_attribute_absence (fun s => s) (fun _ => JSValue.str "")).2.2 _
    (by simp [warehouse_wise_stock_balance_cluster]) (by decide)

lemma optVal_roundtrip (o : Option JSValue) :
    optValOfJson (jsonOfOptVal o) = some o := by
  rcases o with _ | v
  · rfl
  · cases v <;> rfl

lemma optStr_roundtrip (o : Option String) :
    optStrOfJson (jsonOfOptStr o) = some o := by
  rcases o with _ | s <;> rfl

lemma filter_roundtrip (f : FilterField) :
    deserializeFilter (serializeFilter f) = some f := by
  obtain ⟨fn, lb, ft, o, r, d⟩ := f
  simp [serializeFilter, deserializeFilter, optStr_roundtrip, optVal_roundtrip]

lemma filters_roundtrip (l : List FilterField) :
    deserializeFilters (l.map serializeFilter) = some l := by
  induction l with
  | nil => rfl
  | cons f fs ih => simp [deserializeFilters, filter_roundtrip, ih]

lemma config_roundtrip (c : ReportConfiguration) :
    deserializeConfig (serializeConfig c) = some c := by
  obtain ⟨fs, d, t, pf, nf⟩ := c
  simp [serializeConfig, deserializeConfig, filters_roundtrip]

/-- C8: for every localization and user-default function, serializing the
registered configuration to the JSON transport format and deserializing it
reproduces the configuration, equal in all documented fields (the filters
with their fieldname, label, fieldtype, options, reqd and default, plus
initial_depth, tree, parent_field and name_field). -/
theorem c8_serialization_roundtrip (localize : String → String)
    (get_user_default : String → JSValue) :
    deserializeConfig
        (serializeConfig
          (warehouse_wise_stock_balance_cluster localize get_user_default))
      = some (warehouse_wise_stock_balance_cluster localize
          get_user_default) :=
  config_roundtrip _
